import Mathlib

/-!
# Memo-maker processing pipeline: shallow embedding and verification

This file embeds the memo-processing pipeline of the repository
(`backend/src/jobs/queue.ts`, the transcription and memo-generation
workers, `MemoService`, `MemoGenerationService.validateTranscript` and the
memo HTTP routes) as executable Lean definitions, and proves properties of
the embedded code.

Modelling conventions:
* The Prisma database is a record of keyed maps (`Nat → Option _`),
  keyed the way the source queries them (`memo.id`, `transcript.memoId`,
  `subscription.userId`).  `findUnique` is application, `update`/`create`
  are pointwise function updates.
* Fallible operations return `Except`; a JS `throw` is `.error`, the
  string carried is the JS `error.message`.
* External collaborators (S3 download, Whisper, GPT) are oracles passed in
  as `Except`-valued environment records, one per job attempt.
* Worker handlers additionally emit a trace of side-effect events so that
  ordering and counting claims can be stated.
-/

namespace MemoMaker

/-- Decidable equality of `Except` results, used to evaluate the embedded
code on concrete inputs. -/
instance exceptDecidableEq {ε α : Type} [DecidableEq ε] [DecidableEq α] :
    DecidableEq (Except ε α) := fun x y =>
  match x, y with
  | .ok a, .ok b =>
    if h : a = b then .isTrue (congrArg Except.ok h)
    else .isFalse fun hc => h (by injection hc)
  | .error e, .error f =>
    if h : e = f then .isTrue (congrArg Except.error h)
    else .isFalse fun hc => h (by injection hc)
  | .ok _, .error _ => .isFalse fun hc => by injection hc
  | .error _, .ok _ => .isFalse fun hc => by injection hc

/-- JS `String.prototype.trim` (strip leading and trailing whitespace),
modelled over the character list so that it evaluates by kernel
reduction. -/
def strTrim (s : String) : String :=
  ⟨((s.data.dropWhile Char.isWhitespace).reverse.dropWhile Char.isWhitespace).reverse⟩

/-- Prisma enum `MemoStatus`. -/
inductive MemoStatus where
  | UPLOADING
  | TRANSCRIBING
  | GENERATING
  | COMPLETED
  | FAILED
deriving DecidableEq, Repr, Fintype

/-- Priority levels of generated action items (`memoContentSchema`). -/
inductive ItemPriority where
  | high
  | medium
  | low
deriving DecidableEq, Repr

/-- An action item of the generated memo content (`memoContentSchema.actionItems`). -/
structure ActionItem where
  task : String
  owner : Option String
  dueDate : Option String
  priority : Option ItemPriority
deriving DecidableEq, Repr

/-- Generated memo content (`memoContentSchema` in memo-generation.service). -/
structure GeneratedContent where
  summary : String
  keyPoints : List String
  actionItems : List ActionItem
  decisions : List String
  nextSteps : Option (List String)
  attendees : Option (List String)
deriving DecidableEq, Repr

/-- One time-stamped transcript segment (Whisper verbose output).  Times are
modelled as integers; nothing in the pipeline reads them. -/
structure Segment where
  startTime : Int
  endTime : Int
  text : String
deriving DecidableEq, Repr

/-- Prisma model `Transcript`: owned by a memo (one-to-one, keyed by `memoId`). -/
structure Transcript where
  memoId : Nat
  text : String
  segments : List Segment
  language : String
deriving DecidableEq, Repr

/-- Prisma model `Memo` (the fields the pipeline reads or writes). -/
structure Memo where
  id : Nat
  userId : Nat
  title : String
  date : Int
  participants : List String
  status : MemoStatus
  errorMessage : Option String
  duration : Option Nat
  audioUrl : Option String
  audioStorageKey : Option String
  memoContent : Option GeneratedContent
deriving DecidableEq, Repr

/-- Prisma model `Subscription` (the fields the pipeline reads or writes). -/
structure Subscription where
  userId : Nat
  tier : String
  monthlyMinutes : Nat
  minutesUsed : Nat
deriving DecidableEq, Repr

/-- The relational store.  `memos` is keyed by `memo.id`, `transcripts` by
`transcript.memoId` (the one-to-one `Memo ↔ Transcript` relation),
`subscriptions` by `subscription.userId`. -/
structure DB where
  memos : Nat → Option Memo
  transcripts : Nat → Option Transcript
  subscriptions : Nat → Option Subscription

/-- Pointwise update of the memo table (`prisma.memo.update`/`create` keyed by id). -/
def putMemo (db : DB) (memoId : Nat) (m : Memo) : DB :=
  { db with memos := fun i => if i = memoId then some m else db.memos i }

/-- Pointwise update of the transcript table keyed by `memoId`. -/
def putTranscript (db : DB) (memoId : Nat) (t : Transcript) : DB :=
  { db with transcripts := fun i => if i = memoId then some t else db.transcripts i }

/-- Pointwise update of the subscription table keyed by `userId`. -/
def putSubscription (db : DB) (userId : Nat) (sub : Subscription) : DB :=
  { db with subscriptions := fun u => if u = userId then some sub else db.subscriptions u }

/-- The application error hierarchy of `utils/errors.ts` (the constructors
used by the embedded code paths). -/
inductive AppError where
  | validation (message : String)
  | notFound (resource : String)
  | authorization (message : String)
  | internal (message : String)
deriving DecidableEq, Repr

/-- The JS `error.message` of each error (`NotFoundError` formats
`"<resource> not found"`). -/
def AppError.message : AppError → String
  | .validation m => m
  | .notFound r => r ++ " not found"
  | .authorization m => m
  | .internal m => m

/-- `MemoService.updateMemoStatus`: look the memo up (`NotFoundError` when
missing) and update `status`; `errorMessage` is spread into the update only
when truthy (`...(errorMessage && { errorMessage })`), so `undefined` and
`""` leave the stored error message unchanged. -/
def updateMemoStatus (db : DB) (memoId : Nat) (status : MemoStatus)
    (errorMessage : Option String) : Except AppError (DB × Memo) :=
  match db.memos memoId with
  | none => .error (.notFound "Memo")
  | some memo =>
    let updated : Memo :=
      { memo with
        status := status
        errorMessage :=
          match errorMessage with
          | some e => if e = "" then memo.errorMessage else some e
          | none => memo.errorMessage }
    .ok (putMemo db memoId updated, updated)

/-- `MemoService.incrementUsage`: `prisma.subscription.update` with an
`increment` of `minutesUsed`; Prisma's update throws when no row matches
`userId`. -/
def incrementUsage (db : DB) (userId : Nat) (minutes : Nat) :
    Except AppError DB :=
  match db.subscriptions userId with
  | none => .error (.notFound "Subscription")
  | some sub =>
    .ok (putSubscription db userId { sub with minutesUsed := sub.minutesUsed + minutes })

/-- `MemoService.checkSubscriptionLimits`: `false` when the user has no
subscription or `minutesUsed >= monthlyMinutes`, `true` otherwise. -/
def checkSubscriptionLimits (db : DB) (userId : Nat) : Bool :=
  match db.subscriptions userId with
  | none => false
  | some sub => decide (sub.minutesUsed < sub.monthlyMinutes)

/-- Input of `MemoService.createMemo` (`date` is an epoch timestamp). -/
structure CreateMemoInput where
  title : String
  date : Int
  participants : List String
deriving DecidableEq, Repr

/-- `MemoService.createMemo`: validates with `createMemoSchema`
(`title` non-empty, then trimmed; `date` not in the future) and inserts a
memo in status `UPLOADING`.  `now` is the clock reading of the zod refine,
`newId` the id the database assigns. -/
def createMemo (db : DB) (now : Int) (newId userId : Nat)
    (input : CreateMemoInput) : Except AppError (DB × Memo) :=
  if input.title.length < 1 then .error (.validation "Invalid memo data")
  else if now < input.date then .error (.validation "Invalid memo data")
  else
    let memo : Memo :=
      { id := newId
        userId := userId
        title := strTrim input.title
        date := input.date
        participants := input.participants
        status := .UPLOADING
        errorMessage := none
        duration := none
        audioUrl := none
        audioStorageKey := none
        memoContent := none }
    .ok (putMemo db newId memo, memo)

/-- `MemoService.getMemo`: `NotFoundError` when missing,
`AuthorizationError` when owned by another user. -/
def getMemoOwned (db : DB) (memoId userId : Nat) : Except AppError Memo :=
  match db.memos memoId with
  | none => .error (.notFound "Memo")
  | some memo =>
    if memo.userId = userId then .ok memo
    else .error (.authorization "You do not have access to this memo")

/-- `MemoService.setAudioUrl`. -/
def setAudioUrl (db : DB) (memoId : Nat) (audioUrl audioStorageKey : String) :
    Except AppError (DB × Memo) :=
  match db.memos memoId with
  | none => .error (.notFound "Memo")
  | some memo =>
    let updated := { memo with audioUrl := some audioUrl, audioStorageKey := some audioStorageKey }
    .ok (putMemo db memoId updated, updated)

/-- `MemoService.setMemoContent`. -/
def setMemoContent (db : DB) (memoId : Nat) (content : GeneratedContent) :
    Except AppError (DB × Memo) :=
  match db.memos memoId with
  | none => .error (.notFound "Memo")
  | some memo =>
    let updated := { memo with memoContent := some content }
    .ok (putMemo db memoId updated, updated)

/-- Modelled from the spec: the Prisma schema file is not under src/, so
the uniqueness constraint behind `prisma.transcript.create` is modelled
from spec §3 - the transcript is "owned by the memo; created exactly once"
- and from the one-to-one `Memo ↔ Transcript` relation visible in the
client typings (`include: { transcript: true }` yields
`Transcript | null`).  Creating a transcript for a memo that already has
one therefore throws a unique-constraint error (Prisma P2002). -/
def transcriptCreate (db : DB) (t : Transcript) : Except AppError DB :=
  match db.transcripts t.memoId with
  | some _ => .error (.internal "Unique constraint failed on the fields: (memoId)")
  | none => .ok (putTranscript db t.memoId t)

/-- `MemoGenerationService.validateTranscript`: throws `ValidationError`
for an empty (after trim) transcript, one shorter than 50 characters or
longer than 100,000 characters; returns `true` otherwise. -/
def validateTranscript (transcript : String) : Except AppError Bool :=
  if (strTrim transcript).length = 0 then
    .error (.validation "Transcript is empty")
  else if transcript.length < 50 then
    .error (.validation "Transcript too short (minimum 50 characters)")
  else if transcript.length > 100000 then
    .error (.validation "Transcript too long (maximum 100,000 characters)")
  else
    .ok true

/-! ## Job queues (BullMQ) -/

/-- A job as stored by a BullMQ queue (the fields the source sets). -/
structure QueuedJob where
  jobId : String
  jobName : String
  memoId : Nat
  priority : Nat
deriving DecidableEq, Repr

/-- The jobs currently known to one queue (waiting, delayed, active or
retained finished jobs), keyed by `jobId`. -/
structure QueueState where
  jobs : List QueuedJob
deriving DecidableEq, Repr

/-- BullMQ `Queue.add` with an explicit `jobId`: when a job with that id
already exists the call is a silent no-op returning the existing job; no
error is raised.  Otherwise the job is appended. -/
def bullAdd (q : QueueState) (jobName : String) (memoId : Nat)
    (jobId : String) (priority : Nat) : QueueState × QueuedJob :=
  match q.jobs.find? (fun j => j.jobId == jobId) with
  | some existing => (q, existing)
  | none =>
    let j : QueuedJob := { jobId := jobId, jobName := jobName, memoId := memoId, priority := priority }
    ({ jobs := q.jobs ++ [j] }, j)

/-- BullMQ backoff settings (`defaultQueueOptions.defaultJobOptions.backoff`);
`kind` is the JSON `type` field. -/
structure BackoffSettings where
  kind : String
  delay : Nat
deriving DecidableEq, Repr

/-- Retention settings (`removeOnComplete` / `removeOnFail`). -/
structure RemovalSettings where
  count : Nat
  age : Option Nat
deriving DecidableEq, Repr

/-- `defaultJobOptions` of `defaultQueueOptions` in queue.ts. -/
structure JobRetrySettings where
  attempts : Nat
  backoff : BackoffSettings
  removeOnComplete : RemovalSettings
  removeOnFail : RemovalSettings
deriving DecidableEq, Repr

/-- `defaultQueueOptions.defaultJobOptions` from queue.ts: 3 attempts,
exponential backoff with a 2000 ms base delay, keep the last 100 completed
jobs for 24 h and the last 500 failed jobs. -/
def defaultJobOptions : JobRetrySettings :=
  { attempts := 3
    backoff := { kind := "exponential", delay := 2000 }
    removeOnComplete := { count := 100, age := some (24 * 3600) }
    removeOnFail := { count := 500, age := none } }

/-- BullMQ's built-in exponential backoff: the delay before retrying a job
whose `attemptsMade` attempts have failed is `delay * 2 ^ (attemptsMade - 1)`. -/
def exponentialBackoffDelay (baseDelay attemptsMade : Nat) : Nat :=
  baseDelay * 2 ^ (attemptsMade - 1)

/-- The mutable state the pipeline acts on: the database and the two queues
of queue.ts. -/
structure PipelineState where
  db : DB
  transcriptionQueue : QueueState
  memoGenerationQueue : QueueState

/-- `addTranscriptionJob`: adds `transcribe-audio` with deterministic job id
`transcribe-<memoId>` and priority 1. -/
def addTranscriptionJob (s : PipelineState) (memoId : Nat) :
    PipelineState × QueuedJob :=
  let r := bullAdd s.transcriptionQueue "transcribe-audio" memoId
    ("transcribe-" ++ toString memoId) 1
  ({ s with transcriptionQueue := r.1 }, r.2)

/-- `addMemoGenerationJob`: adds `generate-memo` with deterministic job id
`generate-<memoId>` and priority 2. -/
def addMemoGenerationJob (s : PipelineState) (memoId : Nat) :
    PipelineState × QueuedJob :=
  let r := bullAdd s.memoGenerationQueue "generate-memo" memoId
    ("generate-" ++ toString memoId) 2
  ({ s with memoGenerationQueue := r.1 }, r.2)

/-! ## Side-effect traces -/

/-- Observable side effects of worker executions and routes, in the order
they are performed. -/
inductive Event where
  | statusWrite (memoId : Nat) (status : MemoStatus) (errorMessage : Option String)
  | transcriptCreate (memoId : Nat)
  | durationWrite (memoId : Nat) (seconds : Nat)
  | usageIncrement (userId : Nat) (minutes : Nat)
  | generationEnqueue (memoId : Nat)
  | transcriptionEnqueue (memoId : Nat)
  | contentWrite (memoId : Nat)
deriving DecidableEq, Repr

/-- The sequence of status values written by a trace (the ledger history of
`updateMemoStatus` calls). -/
def statusWrites (trace : List Event) : List MemoStatus :=
  trace.filterMap fun e =>
    match e with
    | .statusWrite _ st _ => some st
    | _ => none

/-- The usage-counter increments of a trace, as (userId, minutes) pairs. -/
def usageIncrements (trace : List Event) : List (Nat × Nat) :=
  trace.filterMap fun e =>
    match e with
    | .usageIncrement u mins => some (u, mins)
    | _ => none

/-! ## Transcription worker -/

/-- A transcription result as returned by
`TranscriptionService.transcribeAudio`: `duration` is already in minutes
(`Math.ceil(seconds / 60)`), the measured - not estimated - value. -/
structure TranscriptionResult where
  text : String
  language : String
  duration : Nat
  segments : List Segment
deriving DecidableEq, Repr

/-- Outcomes of the two external calls one transcription attempt makes:
the S3 `downloadAudio` and the Whisper `transcribeAudio`. -/
structure TranscriptionEnv where
  download : Except String Unit
  transcribe : Except String TranscriptionResult

/-- The `try` block of the transcription worker handler, returning the new
state, the trace of effects and the handler result (the returned
`duration` on success, the thrown message on error). -/
def transcriptionTry (env : TranscriptionEnv) (memoId : Nat)
    (s : PipelineState) : PipelineState × List Event × Except String Nat :=
  match updateMemoStatus s.db memoId .TRANSCRIBING none with
  | .error e => (s, [], .error e.message)
  | .ok (db1, _) =>
    let s1 : PipelineState := { s with db := db1 }
    let tr1 : List Event := [.statusWrite memoId .TRANSCRIBING none]
    match db1.memos memoId with
    | none => (s1, tr1, .error "Memo not found")
    | some memo =>
      match memo.audioStorageKey with
      | none => (s1, tr1, .error "No audio file available")
      | some _ =>
        match env.download with
        | .error e => (s1, tr1, .error e)
        | .ok _ =>
          match env.transcribe with
          | .error e => (s1, tr1, .error e)
          | .ok result =>
            let t : Transcript :=
              { memoId := memoId, text := result.text
                segments := result.segments, language := result.language }
            match transcriptCreate db1 t with
            | .error e => (s1, tr1, .error e.message)
            | .ok db2 =>
              let memo2 := { memo with duration := some (result.duration * 60) }
              let db3 := putMemo db2 memoId memo2
              match incrementUsage db3 memo.userId result.duration with
              | .error e =>
                ({ s with db := db3 },
                 tr1 ++ [.transcriptCreate memoId, .durationWrite memoId (result.duration * 60)],
                 .error e.message)
              | .ok db4 =>
                let s4 : PipelineState := { s with db := db4 }
                let s5 := (addMemoGenerationJob s4 memoId).1
                (s5,
                 tr1 ++ [.transcriptCreate memoId,
                         .durationWrite memoId (result.duration * 60),
                         .usageIncrement memo.userId result.duration,
                         .generationEnqueue memoId],
                 .ok result.duration)

/-- The `catch` block of the transcription worker: set the memo `FAILED`
with `"Transcription failed: <message>"`, then rethrow. -/
def transcriptionCatch (memoId : Nat) (msg : String) (s : PipelineState) :
    PipelineState × List Event × Except String Nat :=
  match updateMemoStatus s.db memoId .FAILED (some ("Transcription failed: " ++ msg)) with
  | .ok (db2, _) =>
    ({ s with db := db2 },
     [.statusWrite memoId .FAILED (some ("Transcription failed: " ++ msg))],
     .error msg)
  | .error e => (s, [], .error e.message)

/-- One execution (attempt) of the transcription worker handler. -/
def transcriptionAttempt (env : TranscriptionEnv) (memoId : Nat)
    (s : PipelineState) : PipelineState × List Event × Except String Nat :=
  match transcriptionTry env memoId s with
  | (s1, tr, .ok d) => (s1, tr, .ok d)
  | (s1, tr, .error e) =>
    let c := transcriptionCatch memoId e s1
    (c.1, tr ++ c.2.1, c.2.2)

/-! ## Memo generation worker -/

/-- Outcome of the external GPT call one generation attempt makes. -/
structure GenerationEnv where
  generate : Except String GeneratedContent

/-- The `try` block of the memo-generation worker handler. -/
def generationTry (env : GenerationEnv) (memoId : Nat) (s : PipelineState) :
    PipelineState × List Event × Except String GeneratedContent :=
  match updateMemoStatus s.db memoId .GENERATING none with
  | .error e => (s, [], .error e.message)
  | .ok (db1, _) =>
    let s1 : PipelineState := { s with db := db1 }
    let tr1 : List Event := [.statusWrite memoId .GENERATING none]
    match db1.memos memoId with
    | none => (s1, tr1, .error "Memo not found")
    | some _ =>
      match db1.transcripts memoId with
      | none => (s1, tr1, .error "No transcript available")
      | some transcript =>
        match validateTranscript transcript.text with
        | .error e => (s1, tr1, .error e.message)
        | .ok _ =>
          match env.generate with
          | .error e => (s1, tr1, .error e)
          | .ok content =>
            match setMemoContent db1 memoId content with
            | .error e => (s1, tr1, .error e.message)
            | .ok (db2, _) =>
              match updateMemoStatus db2 memoId .COMPLETED none with
              | .error e =>
                ({ s with db := db2 }, tr1 ++ [.contentWrite memoId], .error e.message)
              | .ok (db3, _) =>
                ({ s with db := db3 },
                 tr1 ++ [.contentWrite memoId, .statusWrite memoId .COMPLETED none],
                 .ok content)

/-- The `catch` block of the memo-generation worker: set the memo `FAILED`
with `"Memo generation failed: <message>"`, then rethrow. -/
def generationCatch (memoId : Nat) (msg : String) (s : PipelineState) :
    PipelineState × List Event × Except String GeneratedContent :=
  match updateMemoStatus s.db memoId .FAILED (some ("Memo generation failed: " ++ msg)) with
  | .ok (db2, _) =>
    ({ s with db := db2 },
     [.statusWrite memoId .FAILED (some ("Memo generation failed: " ++ msg))],
     .error msg)
  | .error e => (s, [], .error e.message)

/-- One execution (attempt) of the memo-generation worker handler. -/
def generationAttempt (env : GenerationEnv) (memoId : Nat)
    (s : PipelineState) : PipelineState × List Event × Except String GeneratedContent :=
  match generationTry env memoId s with
  | (s1, tr, .ok c) => (s1, tr, .ok c)
  | (s1, tr, .error e) =>
    let c := generationCatch memoId e s1
    (c.1, tr ++ c.2.1, c.2.2)

/-! ## Retry drivers

BullMQ re-runs a handler that threw until its attempt budget
(`defaultJobOptions.attempts`) is exhausted; a run of a job is the sequence
of attempts, one oracle environment per attempt, stopping at the first
success.  The third component is the returned duration (`some d`) when some
attempt succeeded, `none` when all attempts failed. -/

/-- Run a transcription job: one attempt per environment, stopping at the
first successful attempt. -/
def runTranscriptionJob : List TranscriptionEnv → Nat → PipelineState →
    PipelineState × List Event × Option Nat
  | [], _, s => (s, [], none)
  | env :: rest, memoId, s =>
    match transcriptionAttempt env memoId s with
    | (s1, tr, .ok d) => (s1, tr, some d)
    | (s1, tr, .error _) =>
      let r := runTranscriptionJob rest memoId s1
      (r.1, tr ++ r.2.1, r.2.2)

/-- Run a memo-generation job: one attempt per environment, stopping at the
first successful attempt. -/
def runMemoGenerationJob : List GenerationEnv → Nat → PipelineState →
    PipelineState × List Event × Option GeneratedContent
  | [], _, s => (s, [], none)
  | env :: rest, memoId, s =>
    match generationAttempt env memoId s with
    | (s1, tr, .ok c) => (s1, tr, some c)
    | (s1, tr, .error _) =>
      let r := runMemoGenerationJob rest memoId s1
      (r.1, tr ++ r.2.1, r.2.2)

/-- A full pipeline run for one memo: the transcription job (up to
`attempts` environments), then - because the successful transcription
attempt enqueued it - the memo-generation job. -/
def runPipeline (tenvs : List TranscriptionEnv) (genvs : List GenerationEnv)
    (memoId : Nat) (s : PipelineState) : PipelineState × List Event :=
  let t := runTranscriptionJob tenvs memoId s
  match t.2.2 with
  | none => (t.1, t.2.1)
  | some _ =>
    let g := runMemoGenerationJob genvs memoId t.1
    (g.1, t.2.1 ++ g.2.1)

/-! ## HTTP routes (memoRoutes) -/

/-- What a route handler replies. -/
inductive RouteOutcome where
  | created (memo : Memo)
  | uploaded (audioUrl : String)
  | errorResponse (httpStatus : Nat) (code : String)
deriving DecidableEq, Repr

/-- Body of `POST /` (route-level zod `createMemoSchema`: `title` min 1,
optional datetime, optional participants). -/
structure CreateMemoBody where
  title : String
  date : Option Int
  participants : Option (List String)
deriving DecidableEq, Repr

/-- `POST /` of memoRoutes: parse the body, check subscription limits
(403 `SUBSCRIPTION_LIMIT_EXCEEDED` when over quota, nothing created or
enqueued), then `createMemo`. -/
def createMemoRoute (s : PipelineState) (now : Int) (newId userId : Nat)
    (body : CreateMemoBody) : PipelineState × RouteOutcome :=
  if body.title.length < 1 then (s, .errorResponse 400 "VALIDATION_ERROR")
  else if checkSubscriptionLimits s.db userId then
    match createMemo s.db now newId userId
      { title := body.title
        date := body.date.getD now
        participants := body.participants.getD [] } with
    | .error _ => (s, .errorResponse 400 "VALIDATION_ERROR")
    | .ok (db2, memo) => ({ s with db := db2 }, .created memo)
  else (s, .errorResponse 403 "SUBSCRIPTION_LIMIT_EXCEEDED")

/-- Outcome of the S3 `PutObject` the upload route performs. -/
structure StorageEnv where
  putOk : Bool
deriving DecidableEq, Repr

/-- The S3 object key `memos/<memoId>/audio-<now>.mp3` built by
`StorageService.uploadAudio`. -/
def audioObjectKey (memoId nowMs : Nat) : String :=
  "memos/" ++ toString memoId ++ "/audio-" ++ toString nowMs ++ ".mp3"

/-- `POST /:memoId/audio` of memoRoutes: ownership check, reject memos not
in `UPLOADING` (400 `INVALID_STATUS`), require a file, upload to S3, store
the audio url/key on the memo and enqueue the transcription job. -/
def uploadAudioRoute (env : StorageEnv) (s : PipelineState) (nowMs : Nat)
    (userId memoId : Nat) (file : Option String) :
    PipelineState × RouteOutcome :=
  match getMemoOwned s.db memoId userId with
  | .error (.notFound _) => (s, .errorResponse 404 "NOT_FOUND")
  | .error (.authorization _) => (s, .errorResponse 403 "AUTHORIZATION_ERROR")
  | .error _ => (s, .errorResponse 500 "INTERNAL_ERROR")
  | .ok memo =>
    if memo.status ≠ .UPLOADING then (s, .errorResponse 400 "INVALID_STATUS")
    else
      match file with
      | none => (s, .errorResponse 400 "NO_FILE")
      | some _ =>
        if env.putOk then
          let key := audioObjectKey memoId nowMs
          let url := "https://memo-maker-audio.s3.amazonaws.com/" ++ key
          match setAudioUrl s.db memoId url key with
          | .error _ => (s, .errorResponse 404 "NOT_FOUND")
          | .ok (db2, _) =>
            let s2 := (addTranscriptionJob { s with db := db2 } memoId).1
            (s2, .uploaded url)
        else (s, .errorResponse 500 "INTERNAL_ERROR")

/-! ## Concrete fixtures (used to evaluate the embedded code on inputs) -/

/-- A fresh memo as `createMemo` produces it. -/
def sampleMemo : Memo :=
  { id := 1, userId := 7, title := "Standup", date := 0, participants := []
    status := .UPLOADING, errorMessage := none, duration := none
    audioUrl := none, audioStorageKey := none, memoContent := none }

/-- A subscription with remaining quota. -/
def sampleSub : Subscription :=
  { userId := 7, tier := "FREE", monthlyMinutes := 100, minutesUsed := 3 }

/-- An exhausted subscription (`minutesUsed = monthlyMinutes`). -/
def exhaustedSub : Subscription :=
  { userId := 7, tier := "FREE", monthlyMinutes := 100, minutesUsed := 100 }

/-- A database holding exactly one memo. -/
def singleMemoDB (m : Memo) : DB :=
  { memos := fun i => if i = m.id then some m else none
    transcripts := fun _ => none
    subscriptions := fun _ => none }

/-- The empty queue. -/
def emptyQueue : QueueState := { jobs := [] }

/-- A pipeline state with the given database and empty queues. -/
def startState (db : DB) : PipelineState :=
  { db := db, transcriptionQueue := emptyQueue, memoGenerationQueue := emptyQueue }

/-- A transcription attempt environment in which both external calls fail. -/
def tEnvDown : TranscriptionEnv :=
  { download := .error "ECONNRESET", transcribe := .error "whisper timeout" }

/-- A successful ten-minute transcription result. -/
def sampleResult : TranscriptionResult :=
  { text := "We discussed the roadmap and agreed on next steps for Q3 launch."
    language := "en", duration := 10, segments := [] }

/-- A transcription attempt environment in which both external calls succeed. -/
def tEnvOk : TranscriptionEnv :=
  { download := .ok (), transcribe := .ok sampleResult }

/-- A sample generated memo content. -/
def sampleContent : GeneratedContent :=
  { summary := "Roadmap agreed", keyPoints := [], actionItems := []
    decisions := [], nextSteps := none, attendees := none }

/-- A generation attempt environment in which the GPT call succeeds. -/
def gEnvOk : GenerationEnv := { generate := .ok sampleContent }

/-- A generation attempt environment in which the GPT call fails. -/
def gEnvDown : GenerationEnv := { generate := .error "rate limit" }

/-! ## Edge predicates for the status state machine -/

/-- The edges the specification's state machine allows:
`UPLOADING→TRANSCRIBING→GENERATING→COMPLETED` with `FAILED` reachable from
`TRANSCRIBING` and `GENERATING`. -/
def allowedEdge : MemoStatus → MemoStatus → Bool
  | .UPLOADING, .TRANSCRIBING => true
  | .TRANSCRIBING, .GENERATING => true
  | .GENERATING, .COMPLETED => true
  | .TRANSCRIBING, .FAILED => true
  | .GENERATING, .FAILED => true
  | _, _ => false

/-- The edges the code actually writes: the specification's edges plus
`FAILED→TRANSCRIBING` and `FAILED→GENERATING` (a retry attempt moves a memo
that the previous failed attempt marked `FAILED` back into the stage
status). -/
def observedEdge : MemoStatus → MemoStatus → Bool
  | .FAILED, .TRANSCRIBING => true
  | .FAILED, .GENERATING => true
  | a, b => allowedEdge a b

/-- Number of jobs of a queue carrying a given job id. -/
def countJobs (q : QueueState) (jobId : String) : Nat :=
  (q.jobs.filter fun j => j.jobId == jobId).length

/-! ## Helper lemmas about the store updates -/

@[simp]
theorem putMemo_memos_self (db : DB) (k : Nat) (m : Memo) :
    (putMemo db k m).memos k = some m := by
  simp [putMemo]

@[simp]
theorem putMemo_transcripts (db : DB) (k : Nat) (m : Memo) :
    (putMemo db k m).transcripts = db.transcripts := rfl

@[simp]
theorem putMemo_subscriptions (db : DB) (k : Nat) (m : Memo) :
    (putMemo db k m).subscriptions = db.subscriptions := rfl

@[simp]
theorem putTranscript_memos (db : DB) (k : Nat) (t : Transcript) :
    (putTranscript db k t).memos = db.memos := rfl

@[simp]
theorem putTranscript_subscriptions (db : DB) (k : Nat) (t : Transcript) :
    (putTranscript db k t).subscriptions = db.subscriptions := rfl

@[simp]
theorem putTranscript_transcripts_self (db : DB) (k : Nat) (t : Transcript) :
    (putTranscript db k t).transcripts k = some t := by
  simp [putTranscript]

@[simp]
theorem putSubscription_memos (db : DB) (u : Nat) (sub : Subscription) :
    (putSubscription db u sub).memos = db.memos := rfl

@[simp]
theorem putSubscription_transcripts (db : DB) (u : Nat) (sub : Subscription) :
    (putSubscription db u sub).transcripts = db.transcripts := rfl

@[simp]
theorem putSubscription_subscriptions_self (db : DB) (u : Nat) (sub : Subscription) :
    (putSubscription db u sub).subscriptions u = some sub := by
  simp [putSubscription]

theorem putMemo_memos_ne (db : DB) (k j : Nat) (m : Memo) (h : j ≠ k) :
    (putMemo db k m).memos j = db.memos j := by
  simp [putMemo, h]

theorem putSubscription_subscriptions_ne (db : DB) (u v : Nat) (sub : Subscription)
    (h : v ≠ u) : (putSubscription db u sub).subscriptions v = db.subscriptions v := by
  simp [putSubscription, h]

@[simp]
theorem addMemoGenerationJob_db (s : PipelineState) (memoId : Nat) :
    (addMemoGenerationJob s memoId).1.db = s.db := rfl

@[simp]
theorem addMemoGenerationJob_tq (s : PipelineState) (memoId : Nat) :
    (addMemoGenerationJob s memoId).1.transcriptionQueue = s.transcriptionQueue := rfl

@[simp]
theorem addTranscriptionJob_db (s : PipelineState) (memoId : Nat) :
    (addTranscriptionJob s memoId).1.db = s.db := rfl

theorem append_ne_empty (a b : String) (h : a.length ≠ 0) : a ++ b ≠ "" := by
  intro hc
  apply h
  have hl := congrArg String.length hc
  rw [String.length_append, show ("" : String).length = 0 from rfl] at hl
  omega

theorem transFailedMsg_ne (e : String) : ¬ ("Transcription failed: " ++ e = "") :=
  append_ne_empty _ _ (by decide)

theorem genFailedMsg_ne (e : String) : ¬ ("Memo generation failed: " ++ e = "") :=
  append_ne_empty _ _ (by decide)

/-! ## Characterization of single worker attempts -/

/-- Every memo-generation attempt on an existing memo either succeeds -
writing `GENERATING`, the content and `COMPLETED`, in that order - or fails,
writing `GENERATING` then `FAILED` with the prefixed captured reason;
transcripts, subscriptions and both queues are never touched. -/
theorem generationAttempt_spec (env : GenerationEnv) (memoId : Nat)
    (s : PipelineState) (m : Memo) (h : s.db.memos memoId = some m) :
    (∃ c t, env.generate = .ok c ∧ s.db.transcripts memoId = some t ∧
      validateTranscript t.text = .ok true ∧
      (generationAttempt env memoId s).2.1 =
        [.statusWrite memoId .GENERATING none, .contentWrite memoId,
         .statusWrite memoId .COMPLETED none] ∧
      (generationAttempt env memoId s).2.2 = .ok c ∧
      (generationAttempt env memoId s).1.db.memos memoId =
        some { m with status := .COMPLETED, memoContent := some c }) ∨
    (∃ e, (generationAttempt env memoId s).2.1 =
        [.statusWrite memoId .GENERATING none,
         .statusWrite memoId .FAILED (some ("Memo generation failed: " ++ e))] ∧
      (generationAttempt env memoId s).2.2 = .error e ∧
      (generationAttempt env memoId s).1.db.memos memoId =
        some { m with status := .FAILED,
                      errorMessage := some ("Memo generation failed: " ++ e) }) := by
  cases ht : s.db.transcripts memoId with
  | none =>
    right
    refine ⟨"No transcript available", ?_⟩
    simp [generationAttempt, generationTry, h, ht, generationCatch,
      updateMemoStatus, genFailedMsg_ne]
  | some t =>
    cases hv : validateTranscript t.text with
    | error ve =>
      right
      refine ⟨ve.message, ?_⟩
      simp [generationAttempt, generationTry, h, ht, hv, generationCatch,
        updateMemoStatus, genFailedMsg_ne]
    | ok b =>
      have hb : b = true := by
        unfold validateTranscript at hv
        split_ifs at hv
        simp_all
      subst hb
      cases hg : env.generate with
      | error e =>
        right
        refine ⟨e, ?_⟩
        simp [generationAttempt, generationTry, h, ht, hv, hg, generationCatch,
          updateMemoStatus, genFailedMsg_ne]
      | ok c =>
        left
        refine ⟨c, t, rfl, rfl, hv, ?_⟩
        simp [generationAttempt, generationTry, h, ht, hv, hg,
          setMemoContent, updateMemoStatus]

/-- The memo-generation worker never touches the subscription table, the
transcript table or either queue, and emits no usage increment. -/
theorem generationAttempt_frame (env : GenerationEnv) (memoId : Nat)
    (s : PipelineState) :
    (generationAttempt env memoId s).1.db.subscriptions = s.db.subscriptions ∧
    (generationAttempt env memoId s).1.db.transcripts = s.db.transcripts ∧
    (generationAttempt env memoId s).1.transcriptionQueue = s.transcriptionQueue ∧
    (generationAttempt env memoId s).1.memoGenerationQueue = s.memoGenerationQueue ∧
    usageIncrements (generationAttempt env memoId s).2.1 = [] := by
  unfold generationAttempt generationTry generationCatch updateMemoStatus
  cases hm : s.db.memos memoId with
  | none => simp [hm, usageIncrements]
  | some m =>
    cases ht : s.db.transcripts memoId with
    | none => simp [hm, ht, usageIncrements, genFailedMsg_ne]
    | some t =>
      cases hv : validateTranscript t.text with
      | error ve => simp [hm, ht, hv, usageIncrements, genFailedMsg_ne]
      | ok b =>
        cases hg : env.generate with
        | error e => simp [hm, ht, hv, hg, usageIncrements, genFailedMsg_ne]
        | ok c => simp [hm, ht, hv, hg, setMemoContent, usageIncrements]

/-- Every transcription attempt on an existing memo whose owner has a
subscription row either succeeds - writing `TRANSCRIBING`, the transcript,
the duration, the usage increment and the generation enqueue, in that exact
order - or fails, writing `TRANSCRIBING` then `FAILED` with the prefixed
captured reason and leaving transcripts, subscriptions and both queues
untouched. -/
theorem transcriptionAttempt_spec (env : TranscriptionEnv) (memoId : Nat)
    (s : PipelineState) (m : Memo) (sub : Subscription)
    (h : s.db.memos memoId = some m)
    (hsub : s.db.subscriptions m.userId = some sub) :
    (∃ r, env.transcribe = .ok r ∧ env.download = .ok () ∧
      (∃ k, m.audioStorageKey = some k) ∧ s.db.transcripts memoId = none ∧
      (transcriptionAttempt env memoId s).2.1 =
        [.statusWrite memoId .TRANSCRIBING none, .transcriptCreate memoId,
         .durationWrite memoId (r.duration * 60),
         .usageIncrement m.userId r.duration, .generationEnqueue memoId] ∧
      (transcriptionAttempt env memoId s).2.2 = .ok r.duration ∧
      (transcriptionAttempt env memoId s).1.db.memos memoId =
        some { m with status := .TRANSCRIBING, duration := some (r.duration * 60) } ∧
      (transcriptionAttempt env memoId s).1.db.transcripts memoId =
        some { memoId := memoId, text := r.text, segments := r.segments,
               language := r.language } ∧
      (transcriptionAttempt env memoId s).1.db.subscriptions m.userId =
        some { sub with minutesUsed := sub.minutesUsed + r.duration } ∧
      (∀ u, u ≠ m.userId →
        (transcriptionAttempt env memoId s).1.db.subscriptions u = s.db.subscriptions u) ∧
      (transcriptionAttempt env memoId s).1.transcriptionQueue = s.transcriptionQueue ∧
      (transcriptionAttempt env memoId s).1.memoGenerationQueue =
        (bullAdd s.memoGenerationQueue "generate-memo" memoId
          ("generate-" ++ toString memoId) 2).1) ∨
    (∃ e, (transcriptionAttempt env memoId s).2.1 =
        [.statusWrite memoId .TRANSCRIBING none,
         .statusWrite memoId .FAILED (some ("Transcription failed: " ++ e))] ∧
      (transcriptionAttempt env memoId s).2.2 = .error e ∧
      (transcriptionAttempt env memoId s).1.db.memos memoId =
        some { m with status := .FAILED,
                      errorMessage := some ("Transcription failed: " ++ e) } ∧
      (transcriptionAttempt env memoId s).1.db.transcripts = s.db.transcripts ∧
      (transcriptionAttempt env memoId s).1.db.subscriptions = s.db.subscriptions ∧
      (transcriptionAttempt env memoId s).1.transcriptionQueue = s.transcriptionQueue ∧
      (transcriptionAttempt env memoId s).1.memoGenerationQueue = s.memoGenerationQueue) := by
  cases hak : m.audioStorageKey with
  | none =>
    right
    refine ⟨"No audio file available", ?_⟩
    simp [transcriptionAttempt, transcriptionTry, h, hak, transcriptionCatch,
      updateMemoStatus, transFailedMsg_ne]
  | some k =>
    cases hd : env.download with
    | error e =>
      right
      refine ⟨e, ?_⟩
      simp [transcriptionAttempt, transcriptionTry, h, hak, hd, transcriptionCatch,
        updateMemoStatus, transFailedMsg_ne]
    | ok u =>
      cases htr : env.transcribe with
      | error e =>
        right
        refine ⟨e, ?_⟩
        simp [transcriptionAttempt, transcriptionTry, h, hak, hd, htr,
          transcriptionCatch, updateMemoStatus, transFailedMsg_ne]
      | ok r =>
        cases ht : s.db.transcripts memoId with
        | some t0 =>
          right
          refine ⟨"Unique constraint failed on the fields: (memoId)", ?_⟩
          simp [transcriptionAttempt, transcriptionTry, transcriptCreate, AppError.message,
            h, hak, hd, htr, ht, transcriptionCatch, updateMemoStatus, transFailedMsg_ne]
        | none =>
          left
          refine ⟨r, rfl, rfl, ⟨k, rfl⟩, rfl, ?_⟩
          simp [transcriptionAttempt, transcriptionTry, transcriptCreate, h, hak,
            hd, htr, ht, updateMemoStatus, incrementUsage, hsub, addMemoGenerationJob,
            putMemo, putTranscript, putSubscription]
          intro v hv1 hv2
          exact absurd hv2 hv1

@[simp]
theorem statusWrites_append (a b : List Event) :
    statusWrites (a ++ b) = statusWrites a ++ statusWrites b := by
  simp [statusWrites]

@[simp]
theorem usageIncrements_append (a b : List Event) :
    usageIncrements (a ++ b) = usageIncrements a ++ usageIncrements b := by
  simp [usageIncrements]

@[simp]
theorem statusWrites_nil : statusWrites [] = [] := rfl

@[simp]
theorem statusWrites_cons_sw (mid : Nat) (st : MemoStatus) (em : Option String)
    (tr : List Event) :
    statusWrites (.statusWrite mid st em :: tr) = st :: statusWrites tr := rfl

@[simp]
theorem statusWrites_cons_tc (mid : Nat) (tr : List Event) :
    statusWrites (.transcriptCreate mid :: tr) = statusWrites tr := rfl

@[simp]
theorem statusWrites_cons_dw (mid sec : Nat) (tr : List Event) :
    statusWrites (.durationWrite mid sec :: tr) = statusWrites tr := rfl

@[simp]
theorem statusWrites_cons_ui (u mins : Nat) (tr : List Event) :
    statusWrites (.usageIncrement u mins :: tr) = statusWrites tr := rfl

@[simp]
theorem statusWrites_cons_ge (mid : Nat) (tr : List Event) :
    statusWrites (.generationEnqueue mid :: tr) = statusWrites tr := rfl

@[simp]
theorem statusWrites_cons_te (mid : Nat) (tr : List Event) :
    statusWrites (.transcriptionEnqueue mid :: tr) = statusWrites tr := rfl

@[simp]
theorem statusWrites_cons_cw (mid : Nat) (tr : List Event) :
    statusWrites (.contentWrite mid :: tr) = statusWrites tr := rfl

@[simp]
theorem usageIncrements_nil : usageIncrements [] = [] := rfl

@[simp]
theorem usageIncrements_cons_sw (mid : Nat) (st : MemoStatus) (em : Option String)
    (tr : List Event) :
    usageIncrements (.statusWrite mid st em :: tr) = usageIncrements tr := rfl

@[simp]
theorem usageIncrements_cons_tc (mid : Nat) (tr : List Event) :
    usageIncrements (.transcriptCreate mid :: tr) = usageIncrements tr := rfl

@[simp]
theorem usageIncrements_cons_dw (mid sec : Nat) (tr : List Event) :
    usageIncrements (.durationWrite mid sec :: tr) = usageIncrements tr := rfl

@[simp]
theorem usageIncrements_cons_ui (u mins : Nat) (tr : List Event) :
    usageIncrements (.usageIncrement u mins :: tr) =
      (u, mins) :: usageIncrements tr := rfl

@[simp]
theorem usageIncrements_cons_ge (mid : Nat) (tr : List Event) :
    usageIncrements (.generationEnqueue mid :: tr) = usageIncrements tr := rfl

@[simp]
theorem usageIncrements_cons_te (mid : Nat) (tr : List Event) :
    usageIncrements (.transcriptionEnqueue mid :: tr) = usageIncrements tr := rfl

@[simp]
theorem usageIncrements_cons_cw (mid : Nat) (tr : List Event) :
    usageIncrements (.contentWrite mid :: tr) = usageIncrements tr := rfl

theorem getLast?_append_some {α : Type} (l₁ l₂ : List α) (x : α)
    (h : l₂.getLast? = some x) : (l₁ ++ l₂).getLast? = some x := by
  have hne : l₂ ≠ [] := by
    intro hnil
    rw [hnil] at h
    simp at h
  rw [List.getLast?_append_of_ne_nil _ hne]
  exact h

/-- A memo-generation job run never touches the subscription table and
emits no usage increment, no matter how many attempts it makes. -/
theorem runMemoGenerationJob_frame (envs : List GenerationEnv) (memoId : Nat) :
    ∀ s : PipelineState,
      (runMemoGenerationJob envs memoId s).1.db.subscriptions = s.db.subscriptions ∧
      usageIncrements (runMemoGenerationJob envs memoId s).2.1 = [] := by
  induction envs with
  | nil =>
    intro s
    simp [runMemoGenerationJob, usageIncrements]
  | cons env rest ih =>
    intro s
    have hf := generationAttempt_frame env memoId s
    rcases hga : generationAttempt env memoId s with ⟨s1, tr, r⟩
    rw [hga] at hf
    cases r with
    | ok c =>
      simp only [runMemoGenerationJob, hga]
      exact ⟨hf.1, hf.2.2.2.2⟩
    | error e =>
      have ihs := ih s1
      simp only [runMemoGenerationJob, hga]
      refine ⟨?_, ?_⟩
      · rw [ihs.1]
        exact hf.1
      · rw [usageIncrements_append, hf.2.2.2.2, ihs.2]
        rfl

/-- All status values a memo-generation job run writes follow the observed
edge relation, whatever entry status has an edge into `GENERATING`. -/
theorem runMemoGenerationJob_chain (envs : List GenerationEnv) (memoId : Nat) :
    ∀ (s : PipelineState) (m : Memo), s.db.memos memoId = some m →
      ∀ st0, observedEdge st0 .GENERATING = true →
        List.Chain' (fun a b => observedEdge a b = true)
          (st0 :: statusWrites (runMemoGenerationJob envs memoId s).2.1) := by
  induction envs with
  | nil =>
    intro s m h st0 h0
    simp [runMemoGenerationJob, statusWrites]
  | cons env rest ih =>
    intro s m h st0 h0
    rcases hga : generationAttempt env memoId s with ⟨s1, tr, r⟩
    rcases generationAttempt_spec env memoId s m h with
      ⟨c, t, hg, ht, hv, htr, hres, hmem⟩ | ⟨e, htr, hres, hmem⟩
    · rw [hga] at htr hres hmem
      simp only at htr hres hmem
      subst hres
      subst htr
      simp only [runMemoGenerationJob, hga, statusWrites_cons_sw,
        statusWrites_cons_cw, statusWrites_nil]
      rw [List.chain'_cons, List.chain'_cons]
      exact ⟨h0, rfl, List.chain'_singleton _⟩
    · rw [hga] at htr hres hmem
      simp only at htr hres hmem
      subst hres
      subst htr
      have ihs := ih s1 _ hmem .FAILED rfl
      simp only [runMemoGenerationJob, hga, statusWrites_append,
        statusWrites_cons_sw, statusWrites_nil, List.cons_append, List.nil_append]
      rw [List.chain'_cons, List.chain'_cons]
      exact ⟨h0, rfl, ihs⟩

/-- Full characterization of a transcription job run (a sequence of
attempts stopping at the first success) for a memo whose owner has a
subscription row: the status writes follow the observed edges; on success
the usage counter is incremented exactly once, by the measured duration of
the succeeding attempt's transcription result; on failure the usage
counter is untouched. -/
theorem runTranscriptionJob_spec (envs : List TranscriptionEnv) (memoId : Nat) :
    ∀ (s : PipelineState) (m : Memo) (sub : Subscription),
      s.db.memos memoId = some m → s.db.subscriptions m.userId = some sub →
      (∀ st0, observedEdge st0 .TRANSCRIBING = true →
        List.Chain' (fun a b => observedEdge a b = true)
          (st0 :: statusWrites (runTranscriptionJob envs memoId s).2.1)) ∧
      (∀ d, (runTranscriptionJob envs memoId s).2.2 = some d →
        (∃ m2, (runTranscriptionJob envs memoId s).1.db.memos memoId = some m2 ∧
          m2.status = .TRANSCRIBING ∧ m2.userId = m.userId) ∧
        (statusWrites (runTranscriptionJob envs memoId s).2.1).getLast? =
          some .TRANSCRIBING ∧
        usageIncrements (runTranscriptionJob envs memoId s).2.1 = [(m.userId, d)] ∧
        (runTranscriptionJob envs memoId s).1.db.subscriptions m.userId =
          some { sub with minutesUsed := sub.minutesUsed + d } ∧
        ∃ env ∈ envs, ∃ r, env.transcribe = .ok r ∧ r.duration = d) ∧
      ((runTranscriptionJob envs memoId s).2.2 = none →
        usageIncrements (runTranscriptionJob envs memoId s).2.1 = [] ∧
        (runTranscriptionJob envs memoId s).1.db.subscriptions = s.db.subscriptions ∧
        ∃ m2, (runTranscriptionJob envs memoId s).1.db.memos memoId = some m2 ∧
          m2.userId = m.userId) := by
  induction envs with
  | nil =>
    intro s m sub h hsub
    refine ⟨?_, ?_, ?_⟩
    · intro st0 h0
      simp [runTranscriptionJob, statusWrites]
    · intro d hd
      simp [runTranscriptionJob] at hd
    · intro hd
      exact ⟨by simp [runTranscriptionJob, usageIncrements], by simp [runTranscriptionJob],
        m, by simpa [runTranscriptionJob] using h, rfl⟩
  | cons env rest ih =>
    intro s m sub h hsub
    rcases hga : transcriptionAttempt env memoId s with ⟨s1, tr, r⟩
    rcases transcriptionAttempt_spec env memoId s m sub h hsub with
      ⟨tres, htres, hdl, hkey, htnone, htr, hres, hmem, htscr, hsubs, hsubo, htq, hgq⟩ |
      ⟨e, htr, hres, hmem, htscr, hsubs, htq, hgq⟩
    · -- the first attempt succeeds: the run stops here
      rw [hga] at htr hres hmem htscr hsubs hsubo htq hgq
      simp only at htr hres hmem htscr hsubs hsubo htq hgq
      subst hres
      subst htr
      refine ⟨?_, ?_, ?_⟩
      · intro st0 h0
        simp only [runTranscriptionJob, hga, statusWrites_cons_sw,
          statusWrites_cons_tc, statusWrites_cons_dw, statusWrites_cons_ui,
          statusWrites_cons_ge, statusWrites_nil]
        rw [List.chain'_cons]
        exact ⟨h0, List.chain'_singleton _⟩
      · intro d hd
        simp only [runTranscriptionJob, hga] at hd ⊢
        have hdd : tres.duration = d := by
          simpa using hd
        subst hdd
        refine ⟨⟨{ m with
          status := .TRANSCRIBING, duration := some (tres.duration * 60) },
          hmem, rfl, rfl⟩, ?_, ?_, ?_, ?_⟩
        · simp
        · simp
        · simpa using hsubs
        · exact ⟨env, List.mem_cons_self env rest, tres, htres, rfl⟩
      · intro hd
        simp only [runTranscriptionJob, hga] at hd
        simp at hd
    · -- the first attempt fails: the run recurses on the remaining attempts
      rw [hga] at htr hres hmem htscr hsubs htq hgq
      simp only at htr hres hmem htscr hsubs htq hgq
      subst hres
      subst htr
      have hsub1 : s1.db.subscriptions m.userId = some sub := by
        rw [hsubs]
        exact hsub
      have ihs := ih s1 _ sub hmem hsub1
      refine ⟨?_, ?_, ?_⟩
      · intro st0 h0
        simp only [runTranscriptionJob, hga, statusWrites_append,
          statusWrites_cons_sw, statusWrites_nil, List.cons_append, List.nil_append]
        rw [List.chain'_cons, List.chain'_cons]
        exact ⟨h0, rfl, ihs.1 .FAILED rfl⟩
      · intro d hd
        simp only [runTranscriptionJob, hga] at hd ⊢
        have hd2 : (runTranscriptionJob rest memoId s1).2.2 = some d := hd
        rcases ihs.2.1 d hd2 with
          ⟨⟨m2, hm2, hm2st, hm2uid⟩, hlast, husage, hsubsF, henv, henvmem, hres2⟩
        refine ⟨⟨m2, hm2, hm2st, by simpa using hm2uid⟩, ?_, ?_, ?_, ?_⟩
        · rw [statusWrites_append]
          exact getLast?_append_some _ _ _ hlast
        · rw [usageIncrements_append]
          simpa using husage
        · simpa using hsubsF
        · exact ⟨henv, List.mem_cons_of_mem env henvmem, hres2⟩
      · intro hd
        simp only [runTranscriptionJob, hga] at hd ⊢
        rcases ihs.2.2 hd with ⟨husage, hsubsF, m2, hm2, hm2uid⟩
        refine ⟨?_, ?_, m2, hm2, by simpa using hm2uid⟩
        · rw [usageIncrements_append]
          simpa using husage
        · rw [hsubsF]
          exact hsubs

/-- A transcription attempt on a memo without a stored audio key always
fails with `No audio file available`, after writing `TRANSCRIBING` and then
`FAILED`; the failure does not depend on the attempt's environment. -/
theorem transcriptionAttempt_noAudio (env : TranscriptionEnv) (memoId : Nat)
    (s : PipelineState) (m : Memo) (h : s.db.memos memoId = some m)
    (hak : m.audioStorageKey = none) :
    (transcriptionAttempt env memoId s).1.db.memos memoId =
      some { m with
        status := .FAILED
        errorMessage := some ("Transcription failed: " ++ "No audio file available") } ∧
    (transcriptionAttempt env memoId s).2.1 =
      [.statusWrite memoId .TRANSCRIBING none,
       .statusWrite memoId .FAILED
         (some ("Transcription failed: " ++ "No audio file available"))] ∧
    (transcriptionAttempt env memoId s).2.2 = .error "No audio file available" := by
  simp [transcriptionAttempt, transcriptionTry, h, hak, transcriptionCatch,
    updateMemoStatus, transFailedMsg_ne]

/-- C1: every status value written by a full pipeline run (transcription
job with retries, then - when transcription succeeded - the generation job
with retries) follows the `observedEdge` relation: the specified edges
`UPLOADING→TRANSCRIBING`, `TRANSCRIBING→GENERATING`, `GENERATING→COMPLETED`,
`TRANSCRIBING→FAILED`, `GENERATING→FAILED`, plus the two retry edges
`FAILED→TRANSCRIBING` and `FAILED→GENERATING` (because the workers mark the
memo `FAILED` on every failed attempt, not only the last); `COMPLETED` has
no outgoing edge, so it is terminal. -/
theorem claim_C1_observed_edges (tenvs : List TranscriptionEnv)
    (genvs : List GenerationEnv) (memoId : Nat) (s : PipelineState)
    (m : Memo) (sub : Subscription)
    (h : s.db.memos memoId = some m)
    (hsub : s.db.subscriptions m.userId = some sub)
    (hst : m.status = .UPLOADING) :
    List.Chain' (fun a b => observedEdge a b = true)
      (m.status :: statusWrites (runPipeline tenvs genvs memoId s).2) ∧
    (∀ b, observedEdge .COMPLETED b = false) := by
  have tspec := runTranscriptionJob_spec tenvs memoId s m sub h hsub
  have hentry : observedEdge m.status .TRANSCRIBING = true := by
    rw [hst]
    rfl
  refine ⟨?_, by decide⟩
  cases hd : (runTranscriptionJob tenvs memoId s).2.2 with
  | none =>
    simp only [runPipeline, hd]
    exact tspec.1 m.status hentry
  | some d =>
    obtain ⟨⟨m2, hm2, hm2st, hm2uid⟩, hlast, husage, hsubsT, henvx⟩ :=
      tspec.2.1 d hd
    have gchain := runMemoGenerationJob_chain genvs memoId
      (runTranscriptionJob tenvs memoId s).1 m2 hm2 .TRANSCRIBING rfl
    have hcons := List.chain'_cons'.mp gchain
    simp only [runPipeline, hd]
    rw [statusWrites_append]
    rw [show m.status :: (statusWrites (runTranscriptionJob tenvs memoId s).2.1 ++
      statusWrites (runMemoGenerationJob genvs memoId
        (runTranscriptionJob tenvs memoId s).1).2.1) =
      (m.status :: statusWrites (runTranscriptionJob tenvs memoId s).2.1) ++
      statusWrites (runMemoGenerationJob genvs memoId
        (runTranscriptionJob tenvs memoId s).1).2.1 from rfl]
    rw [List.chain'_append]
    refine ⟨tspec.1 m.status hentry, hcons.2, ?_⟩
    intro x hx y hy
    have hlx : (m.status :: statusWrites (runTranscriptionJob tenvs memoId s).2.1).getLast? =
        some .TRANSCRIBING := by
      have := getLast?_append_some [m.status] _ _ hlast
      simpa using this
    rw [hlx] at hx
    simp only [Option.mem_def, Option.some_inj] at hx
    subst hx
    exact hcons.1 y hy

/-- C1 counterexample: with a memo that has no stored audio key, three
failing transcription attempts write the ledger history
`UPLOADING, TRANSCRIBING, FAILED, TRANSCRIBING, FAILED, TRANSCRIBING,
FAILED`, which contains the edge `FAILED→TRANSCRIBING`; the edge set the
claim allows does not contain that edge, so the history violates the
claimed chain and `FAILED` is not terminal across attempts. -/
theorem claim_C1_edge_refuted :
    statusWrites (runPipeline [tEnvDown, tEnvDown, tEnvDown] [] 1
      (startState (putSubscription (singleMemoDB sampleMemo) 7 sampleSub))).2 =
      [.TRANSCRIBING, .FAILED, .TRANSCRIBING, .FAILED, .TRANSCRIBING, .FAILED] ∧
    allowedEdge .FAILED .TRANSCRIBING = false ∧
    ¬ List.Chain' (fun a b => allowedEdge a b = true)
      (MemoStatus.UPLOADING :: statusWrites (runPipeline [tEnvDown, tEnvDown, tEnvDown] [] 1
        (startState (putSubscription (singleMemoDB sampleMemo) 7 sampleSub))).2) := by
  refine ⟨by decide, by decide, ?_⟩
  intro hchain
  rw [show statusWrites (runPipeline [tEnvDown, tEnvDown, tEnvDown] [] 1
      (startState (putSubscription (singleMemoDB sampleMemo) 7 sampleSub))).2 =
      [.TRANSCRIBING, .FAILED, .TRANSCRIBING, .FAILED, .TRANSCRIBING, .FAILED] from by decide]
    at hchain
  rw [List.chain'_cons, List.chain'_cons, List.chain'_cons] at hchain
  exact absurd hchain.2.2.1 (by decide)

/-- C1 witness: the amended edge theorem applied to a concrete state (one
memo in `UPLOADING` with audio stored, a subscription with quota, one
failing then one succeeding transcription attempt, one failing then one
succeeding generation attempt). -/
theorem claim_C1_observed_edges_witness :
    List.Chain' (fun a b => observedEdge a b = true)
      (Memo.status { sampleMemo with audioStorageKey := some "k" } ::
        statusWrites (runPipeline [tEnvDown, tEnvOk] [gEnvDown, gEnvOk] 1
          (startState (putSubscription
            (singleMemoDB { sampleMemo with audioStorageKey := some "k" }) 7 sampleSub))).2) ∧
    (∀ b, observedEdge .COMPLETED b = false) :=
  claim_C1_observed_edges [tEnvDown, tEnvOk] [gEnvDown, gEnvOk] 1
    (startState (putSubscription
      (singleMemoDB { sampleMemo with audioStorageKey := some "k" }) 7 sampleSub))
    { sampleMemo with audioStorageKey := some "k" } sampleSub
    (by decide) (by decide) rfl

/-- C2: retry configuration and failure marking.  `defaultJobOptions`
retries a job up to 3 attempts with exponential backoff of base delay
2000 ms (the delay doubles per attempt).  However, the worker marks the
owning memo `FAILED` (with the prefixed captured reason) on every failed
attempt - the next attempt resets the status to `TRANSCRIBING` - so after
a job whose three attempts all fail the ledger shows `TRANSCRIBING, FAILED`
three times and the memo ends `FAILED` with the captured reason stored. -/
theorem claim_C2_failed_every_attempt (e1 e2 e3 : TranscriptionEnv)
    (memoId : Nat) (s : PipelineState) (m : Memo)
    (h : s.db.memos memoId = some m) (hak : m.audioStorageKey = none) :
    defaultJobOptions.attempts = 3 ∧
    defaultJobOptions.backoff = { kind := "exponential", delay := 2000 } ∧
    (∀ n : Nat, exponentialBackoffDelay defaultJobOptions.backoff.delay (n + 2) =
      2 * exponentialBackoffDelay defaultJobOptions.backoff.delay (n + 1)) ∧
    statusWrites (runTranscriptionJob [e1, e2, e3] memoId s).2.1 =
      [.TRANSCRIBING, .FAILED, .TRANSCRIBING, .FAILED, .TRANSCRIBING, .FAILED] ∧
    (runTranscriptionJob [e1, e2, e3] memoId s).2.2 = none ∧
    ∃ m2, (runTranscriptionJob [e1, e2, e3] memoId s).1.db.memos memoId = some m2 ∧
      m2.status = .FAILED ∧
      m2.errorMessage = some ("Transcription failed: " ++ "No audio file available") := by
  rcases hga1 : transcriptionAttempt e1 memoId s with ⟨s1, tr1, r1⟩
  obtain ⟨hm1, htr1, hres1⟩ := transcriptionAttempt_noAudio e1 memoId s m h hak
  rw [hga1] at hm1 htr1 hres1
  simp only at hm1 htr1 hres1
  subst htr1
  subst hres1
  rcases hga2 : transcriptionAttempt e2 memoId s1 with ⟨s2, tr2, r2⟩
  obtain ⟨hm2, htr2, hres2⟩ := transcriptionAttempt_noAudio e2 memoId s1 _ hm1 hak
  rw [hga2] at hm2 htr2 hres2
  simp only at hm2 htr2 hres2
  subst htr2
  subst hres2
  rcases hga3 : transcriptionAttempt e3 memoId s2 with ⟨s3, tr3, r3⟩
  obtain ⟨hm3, htr3, hres3⟩ := transcriptionAttempt_noAudio e3 memoId s2 _ hm2 hak
  rw [hga3] at hm3 htr3 hres3
  simp only at hm3 htr3 hres3
  subst htr3
  subst hres3
  refine ⟨rfl, rfl, ?_, ?_, ?_, ?_⟩
  · intro n
    simp [exponentialBackoffDelay, defaultJobOptions, pow_succ]
    ring
  · simp only [runTranscriptionJob, hga1, hga2, hga3]
    simp
  · simp only [runTranscriptionJob, hga1, hga2, hga3]
  · refine ⟨{ m with
      status := .FAILED
      errorMessage := some ("Transcription failed: " ++ "No audio file available") },
      ?_, rfl, rfl⟩
    simp only [runTranscriptionJob, hga1, hga2, hga3]
    exact hm3

/-- C2 counterexample: a first failed attempt - two retries still remain,
`defaultJobOptions.attempts = 3` - already leaves the memo `FAILED` with
the captured reason stored, contradicting the claim that the memo is not
marked `FAILED` before the attempts are exhausted. -/
theorem claim_C2_early_failed_mark :
    defaultJobOptions.attempts = 3 ∧
    (transcriptionAttempt tEnvDown 1
      (startState (singleMemoDB sampleMemo))).2.2 = .error "No audio file available" ∧
    (transcriptionAttempt tEnvDown 1
      (startState (singleMemoDB sampleMemo))).1.db.memos 1 =
      some { sampleMemo with
        status := .FAILED
        errorMessage := some "Transcription failed: No audio file available" } := by
  refine ⟨rfl, by decide, by decide⟩

/-- C2 witness: the amended theorem applied to a concrete memo without an
audio key; its three attempts all fail and the memo ends `FAILED`. -/
theorem claim_C2_failed_every_attempt_witness :
    defaultJobOptions.attempts = 3 ∧
    defaultJobOptions.backoff = { kind := "exponential", delay := 2000 } ∧
    (∀ n : Nat, exponentialBackoffDelay defaultJobOptions.backoff.delay (n + 2) =
      2 * exponentialBackoffDelay defaultJobOptions.backoff.delay (n + 1)) ∧
    statusWrites (runTranscriptionJob [tEnvDown, tEnvDown, tEnvDown] 1
      (startState (singleMemoDB sampleMemo))).2.1 =
      [.TRANSCRIBING, .FAILED, .TRANSCRIBING, .FAILED, .TRANSCRIBING, .FAILED] ∧
    (runTranscriptionJob [tEnvDown, tEnvDown, tEnvDown] 1
      (startState (singleMemoDB sampleMemo))).2.2 = none ∧
    ∃ m2, (runTranscriptionJob [tEnvDown, tEnvDown, tEnvDown] 1
      (startState (singleMemoDB sampleMemo))).1.db.memos 1 = some m2 ∧
      m2.status = .FAILED ∧
      m2.errorMessage = some ("Transcription failed: " ++ "No audio file available") :=
  claim_C2_failed_every_attempt tEnvDown tEnvDown tEnvDown 1
    (startState (singleMemoDB sampleMemo)) sampleMemo (by decide) rfl

/-- C3: the usage counter is incremented exactly once per memo whose
transcription succeeds, by the measured duration (in minutes) of the
succeeding attempt's transcription result; no generation attempt -
successful or failed, however many occur - ever emits a usage increment or
changes the subscription table, so a memo that fails generation after a
successful transcription still shows exactly one increment of the measured
duration. -/
theorem claim_C3_usage_once (tenvs : List TranscriptionEnv)
    (genvs : List GenerationEnv) (memoId : Nat) (s : PipelineState)
    (m : Memo) (sub : Subscription)
    (h : s.db.memos memoId = some m)
    (hsub : s.db.subscriptions m.userId = some sub) :
    (∀ d, (runTranscriptionJob tenvs memoId s).2.2 = some d →
      usageIncrements (runPipeline tenvs genvs memoId s).2 = [(m.userId, d)] ∧
      (runPipeline tenvs genvs memoId s).1.db.subscriptions m.userId =
        some { sub with minutesUsed := sub.minutesUsed + d } ∧
      ∃ env ∈ tenvs, ∃ r, env.transcribe = .ok r ∧ r.duration = d) ∧
    ((runTranscriptionJob tenvs memoId s).2.2 = none →
      usageIncrements (runPipeline tenvs genvs memoId s).2 = [] ∧
      (runPipeline tenvs genvs memoId s).1.db.subscriptions = s.db.subscriptions) ∧
    (∀ (genv : GenerationEnv) (s2 : PipelineState),
      usageIncrements (generationAttempt genv memoId s2).2.1 = [] ∧
      (generationAttempt genv memoId s2).1.db.subscriptions = s2.db.subscriptions) := by
  refine ⟨?_, ?_, ?_⟩
  · intro d hd
    have tspec := runTranscriptionJob_spec tenvs memoId s m sub h hsub
    obtain ⟨⟨m2, hm2, hm2st, hm2uid⟩, hlast, husage, hsubsT, henvx⟩ := tspec.2.1 d hd
    have gframe := runMemoGenerationJob_frame genvs memoId
      (runTranscriptionJob tenvs memoId s).1
    simp only [runPipeline, hd]
    refine ⟨?_, ?_, henvx⟩
    · rw [usageIncrements_append, husage, gframe.2]
      rfl
    · rw [gframe.1]
      exact hsubsT
  · intro hd
    have tspec := runTranscriptionJob_spec tenvs memoId s m sub h hsub
    obtain ⟨husage, hsubs, _⟩ := tspec.2.2 hd
    simp only [runPipeline, hd]
    exact ⟨husage, hsubs⟩
  · intro genv s2
    have gf := generationAttempt_frame genv memoId s2
    exact ⟨gf.2.2.2.2, gf.1⟩

/-- C3 witness: the theorem applied to a concrete state (memo with stored
audio, subscription with 3 minutes used, one successful ten-minute
transcription attempt, then a failing generation attempt): the counter
shows exactly one increment of the measured 10 minutes. -/
theorem claim_C3_usage_once_witness :
    (∀ d, (runTranscriptionJob [tEnvOk] 1
        (startState (putSubscription
          (singleMemoDB { sampleMemo with audioStorageKey := some "k" }) 7 sampleSub))).2.2 =
        some d →
      usageIncrements (runPipeline [tEnvOk] [gEnvDown] 1
        (startState (putSubscription
          (singleMemoDB { sampleMemo with audioStorageKey := some "k" }) 7 sampleSub))).2 =
        [(7, d)] ∧
      (runPipeline [tEnvOk] [gEnvDown] 1
        (startState (putSubscription
          (singleMemoDB { sampleMemo with audioStorageKey := some "k" }) 7 sampleSub))).1.db.subscriptions 7 =
        some { sampleSub with minutesUsed := sampleSub.minutesUsed + d } ∧
      ∃ env ∈ [tEnvOk], ∃ r, env.transcribe = .ok r ∧ r.duration = d) ∧
    ((runTranscriptionJob [tEnvOk] 1
        (startState (putSubscription
          (singleMemoDB { sampleMemo with audioStorageKey := some "k" }) 7 sampleSub))).2.2 = none →
      usageIncrements (runPipeline [tEnvOk] [gEnvDown] 1
        (startState (putSubscription
          (singleMemoDB { sampleMemo with audioStorageKey := some "k" }) 7 sampleSub))).2 = [] ∧
      (runPipeline [tEnvOk] [gEnvDown] 1
        (startState (putSubscription
          (singleMemoDB { sampleMemo with audioStorageKey := some "k" }) 7 sampleSub))).1.db.subscriptions =
        (startState (putSubscription
          (singleMemoDB { sampleMemo with audioStorageKey := some "k" }) 7 sampleSub)).db.subscriptions) ∧
    (∀ (genv : GenerationEnv) (s2 : PipelineState),
      usageIncrements (generationAttempt genv 1 s2).2.1 = [] ∧
      (generationAttempt genv 1 s2).1.db.subscriptions = s2.db.subscriptions) :=
  claim_C3_usage_once [tEnvOk] [gEnvDown] 1
    (startState (putSubscription
      (singleMemoDB { sampleMemo with audioStorageKey := some "k" }) 7 sampleSub))
    { sampleMemo with audioStorageKey := some "k" } sampleSub
    (by decide) (by decide)

/-- C5: on a successful transcription attempt the effects occur in the
exact order: write status `TRANSCRIBING`, persist the transcript, write
the duration, increment usage, enqueue the generation job.  The transcript
is persisted before the enqueue, but the memo's status is NOT advanced
between persist and enqueue - the only status write precedes the persist,
and the advance to `GENERATING` is the generation worker's first effect
when it later runs. -/
theorem claim_C5_effect_order (env : TranscriptionEnv) (memoId : Nat)
    (s : PipelineState) (m : Memo) (sub : Subscription)
    (h : s.db.memos memoId = some m)
    (hsub : s.db.subscriptions m.userId = some sub)
    (d : Nat) (hok : (transcriptionAttempt env memoId s).2.2 = .ok d) :
    (∃ r, env.transcribe = .ok r ∧ r.duration = d ∧
      (transcriptionAttempt env memoId s).2.1 =
        [.statusWrite memoId .TRANSCRIBING none, .transcriptCreate memoId,
         .durationWrite memoId (r.duration * 60),
         .usageIncrement m.userId r.duration, .generationEnqueue memoId]) ∧
    (∀ (genv : GenerationEnv) (s2 : PipelineState) (m2 : Memo),
      s2.db.memos memoId = some m2 →
      (generationAttempt genv memoId s2).2.1.head? =
        some (.statusWrite memoId .GENERATING none)) := by
  constructor
  · rcases transcriptionAttempt_spec env memoId s m sub h hsub with
      ⟨tres, htres, hdl, hkey, htnone, htr, hres, _⟩ | ⟨e, htr, hres, _⟩
    · have hdd : tres.duration = d := by
        rw [hres] at hok
        exact Except.ok.inj hok
      exact ⟨tres, htres, hdd, by rw [htr, hdd]⟩
    · rw [hres] at hok
      exact absurd hok (by simp)
  · intro genv s2 m2 h2
    rcases generationAttempt_spec genv memoId s2 m2 h2 with
      ⟨c, t, hg, ht, hv, htr, _⟩ | ⟨e, htr, _⟩
    · rw [htr]
      rfl
    · rw [htr]
      rfl

/-- C5 counterexample: in a concrete successful transcription attempt the
generation job is enqueued (the generation queue holds `generate-1`) while
the memo's status is still `TRANSCRIBING`: the only status write of the
whole attempt is the initial `TRANSCRIBING`, so the status is never
advanced past the transcription stage between persisting the transcript
and enqueueing the next stage, contradicting the claimed order
persist → advance → enqueue. -/
theorem claim_C5_enqueue_while_transcribing :
    (transcriptionAttempt tEnvOk 1
      (startState (putSubscription
        (singleMemoDB { sampleMemo with audioStorageKey := some "k" }) 7 sampleSub))).2.1 =
      [.statusWrite 1 .TRANSCRIBING none, .transcriptCreate 1, .durationWrite 1 600,
       .usageIncrement 7 10, .generationEnqueue 1] ∧
    statusWrites (transcriptionAttempt tEnvOk 1
      (startState (putSubscription
        (singleMemoDB { sampleMemo with audioStorageKey := some "k" }) 7 sampleSub))).2.1 =
      [.TRANSCRIBING] ∧
    ((transcriptionAttempt tEnvOk 1
      (startState (putSubscription
        (singleMemoDB { sampleMemo with audioStorageKey := some "k" }) 7 sampleSub))).1.db.memos 1).map
      Memo.status = some .TRANSCRIBING ∧
    countJobs (transcriptionAttempt tEnvOk 1
      (startState (putSubscription
        (singleMemoDB { sampleMemo with audioStorageKey := some "k" }) 7 sampleSub))).1.memoGenerationQueue
      "generate-1" = 1 := by
  decide

/-- C5 witness: the amended ordering theorem applied to the same concrete
successful attempt. -/
theorem claim_C5_effect_order_witness :
    (∃ r, tEnvOk.transcribe = .ok r ∧ r.duration = 10 ∧
      (transcriptionAttempt tEnvOk 1
        (startState (putSubscription
          (singleMemoDB { sampleMemo with audioStorageKey := some "k" }) 7 sampleSub))).2.1 =
        [.statusWrite 1 .TRANSCRIBING none, .transcriptCreate 1,
         .durationWrite 1 (r.duration * 60), .usageIncrement 7 r.duration,
         .generationEnqueue 1]) ∧
    (∀ (genv : GenerationEnv) (s2 : PipelineState) (m2 : Memo),
      s2.db.memos 1 = some m2 →
      (generationAttempt genv 1 s2).2.1.head? =
        some (.statusWrite 1 .GENERATING none)) :=
  claim_C5_effect_order tEnvOk 1
    (startState (putSubscription
      (singleMemoDB { sampleMemo with audioStorageKey := some "k" }) 7 sampleSub))
    { sampleMemo with audioStorageKey := some "k" } sampleSub
    (by decide) (by decide) 10 (by decide)

/-- C6: the transcript is created at most once and never mutated: a
transcription attempt that re-runs for a memo which already has a persisted
transcript FAILS (with a unique-constraint error from `transcript.create`)
and leaves the stored transcript unchanged - it does not replace or
overwrite it; the generation worker never touches the transcript table. -/
theorem claim_C6_transcript_create_once (memoId : Nat) :
    (∀ (env : TranscriptionEnv) (s : PipelineState) (m : Memo) (t0 : Transcript),
      s.db.memos memoId = some m → s.db.transcripts memoId = some t0 →
      (transcriptionAttempt env memoId s).1.db.transcripts memoId = some t0 ∧
      ∃ e, (transcriptionAttempt env memoId s).2.2 = .error e) ∧
    (∀ (genv : GenerationEnv) (s : PipelineState),
      (generationAttempt genv memoId s).1.db.transcripts = s.db.transcripts) := by
  constructor
  · intro env s m t0 h ht
    cases hak : m.audioStorageKey with
    | none =>
      constructor
      · simp [transcriptionAttempt, transcriptionTry, h, hak, transcriptionCatch,
          updateMemoStatus, transFailedMsg_ne, ht]
      · exact ⟨"No audio file available", by
          simp [transcriptionAttempt, transcriptionTry, h, hak, transcriptionCatch,
            updateMemoStatus, transFailedMsg_ne]⟩
    | some k =>
      cases hd : env.download with
      | error e =>
        constructor
        · simp [transcriptionAttempt, transcriptionTry, h, hak, hd,
            transcriptionCatch, updateMemoStatus, transFailedMsg_ne, ht]
        · exact ⟨e, by
            simp [transcriptionAttempt, transcriptionTry, h, hak, hd,
              transcriptionCatch, updateMemoStatus, transFailedMsg_ne]⟩
      | ok u =>
        cases htr : env.transcribe with
        | error e =>
          constructor
          · simp [transcriptionAttempt, transcriptionTry, h, hak, hd, htr,
              transcriptionCatch, updateMemoStatus, transFailedMsg_ne, ht]
          · exact ⟨e, by
              simp [transcriptionAttempt, transcriptionTry, h, hak, hd, htr,
                transcriptionCatch, updateMemoStatus, transFailedMsg_ne]⟩
        | ok r =>
          constructor
          · simp [transcriptionAttempt, transcriptionTry, transcriptCreate, AppError.message,
              h, hak, hd, htr, ht, transcriptionCatch, updateMemoStatus, transFailedMsg_ne]
          · exact ⟨"Unique constraint failed on the fields: (memoId)", by
              simp [transcriptionAttempt, transcriptionTry, transcriptCreate, AppError.message,
                h, hak, hd, htr, ht, transcriptionCatch, updateMemoStatus, transFailedMsg_ne]⟩
  · intro genv s
    exact (generationAttempt_frame genv memoId s).2.1

/-- C6 counterexample: with a transcript already persisted for memo 1, a
retried transcription attempt whose external calls would all succeed still
fails with the unique-constraint error and leaves the OLD transcript in
place (text "old transcript kept"), instead of replacing it with the newly
transcribed text. -/
theorem claim_C6_retry_fails_not_overwrites :
    (transcriptionAttempt tEnvOk 1
      (startState { singleMemoDB { sampleMemo with audioStorageKey := some "k" } with
        transcripts := fun i => if i = 1 then
          some { memoId := 1, text := "old transcript kept", segments := [], language := "en" }
          else none })).2.2 =
      .error "Unique constraint failed on the fields: (memoId)" ∧
    (transcriptionAttempt tEnvOk 1
      (startState { singleMemoDB { sampleMemo with audioStorageKey := some "k" } with
        transcripts := fun i => if i = 1 then
          some { memoId := 1, text := "old transcript kept", segments := [], language := "en" }
          else none })).1.db.transcripts 1 =
      some { memoId := 1, text := "old transcript kept", segments := [], language := "en" } ∧
    ((transcriptionAttempt tEnvOk 1
      (startState { singleMemoDB { sampleMemo with audioStorageKey := some "k" } with
        transcripts := fun i => if i = 1 then
          some { memoId := 1, text := "old transcript kept", segments := [], language := "en" }
          else none })).1.db.memos 1).map Memo.status = some .FAILED := by
  refine ⟨by decide, by decide, by decide⟩

/-- C6 witness: the amended theorem applied to the same concrete state:
the retry fails and the old transcript is untouched. -/
theorem claim_C6_transcript_create_once_witness :
    ((transcriptionAttempt tEnvOk 1
        (startState { singleMemoDB { sampleMemo with audioStorageKey := some "k" } with
          transcripts := fun i => if i = 1 then
            some { memoId := 1, text := "old transcript kept", segments := [], language := "en" }
            else none })).1.db.transcripts 1 =
      some { memoId := 1, text := "old transcript kept", segments := [], language := "en" } ∧
      ∃ e, (transcriptionAttempt tEnvOk 1
        (startState { singleMemoDB { sampleMemo with audioStorageKey := some "k" } with
          transcripts := fun i => if i = 1 then
            some { memoId := 1, text := "old transcript kept", segments := [], language := "en" }
            else none })).2.2 = .error e) ∧
    (generationAttempt gEnvOk 1
      (startState (singleMemoDB sampleMemo))).1.db.transcripts =
      (startState (singleMemoDB sampleMemo)).db.transcripts :=
  ⟨(claim_C6_transcript_create_once 1).1 tEnvOk
    (startState { singleMemoDB { sampleMemo with audioStorageKey := some "k" } with
      transcripts := fun i => if i = 1 then
        some { memoId := 1, text := "old transcript kept", segments := [], language := "en" }
        else none })
    { sampleMemo with audioStorageKey := some "k" }
    { memoId := 1, text := "old transcript kept", segments := [], language := "en" }
    (by decide) (by decide),
   (claim_C6_transcript_create_once 1).2 gEnvOk (startState (singleMemoDB sampleMemo))⟩

theorem bullAdd_count_le (q : QueueState) (jobName : String) (memoId : Nat)
    (jobId : String) (priority : Nat) (jid : String)
    (h : countJobs q jid ≤ 1) :
    countJobs (bullAdd q jobName memoId jobId priority).1 jid ≤ 1 := by
  cases hf : q.jobs.find? (fun x => x.jobId == jobId) with
  | some j =>
    simpa only [bullAdd, hf] using h
  | none =>
    simp only [bullAdd, hf, countJobs]
    rw [List.filter_append]
    cases hjj : (jobId == jid) with
    | true =>
      have hjid : jobId = jid := by
        simpa using hjj
      subst hjid
      have hnil : q.jobs.filter (fun j => j.jobId == jobId) = [] := by
        rw [List.filter_eq_nil_iff]
        intro x hx
        have := List.find?_eq_none.mp hf x hx
        simpa using this
      rw [hnil]
      simp [hjj]
    | false =>
      have hnil2 : List.filter (fun j => j.jobId == jid)
          [(⟨jobId, jobName, memoId, priority⟩ : QueuedJob)] = [] := by
        simp [List.filter, hjj]
      rw [hnil2]
      simpa [countJobs] using h

/-- C4: enqueueing a job whose deterministic id (`transcribe-<memoId>` /
`generate-<memoId>`) already exists in the queue is a silent no-op: the
call completes normally, returns the existing job and leaves the queue
unchanged - no `AlreadyQueued` (or any other) error is raised.  The
de-duplication invariant - at most one job per id, hence at most one
in-flight job per memo per stage - is nevertheless preserved by every
enqueue. -/
theorem claim_C4_silent_dedup (s : PipelineState) (memoId : Nat) :
    (∀ j, s.transcriptionQueue.jobs.find?
        (fun x => x.jobId == "transcribe-" ++ toString memoId) = some j →
      addTranscriptionJob s memoId = (s, j)) ∧
    (∀ j, s.memoGenerationQueue.jobs.find?
        (fun x => x.jobId == "generate-" ++ toString memoId) = some j →
      addMemoGenerationJob s memoId = (s, j)) ∧
    (∀ jid, countJobs s.transcriptionQueue jid ≤ 1 →
      countJobs (addTranscriptionJob s memoId).1.transcriptionQueue jid ≤ 1) ∧
    (∀ jid, countJobs s.memoGenerationQueue jid ≤ 1 →
      countJobs (addMemoGenerationJob s memoId).1.memoGenerationQueue jid ≤ 1) := by
  refine ⟨?_, ?_, ?_, ?_⟩
  · intro j hj
    simp only [addTranscriptionJob, bullAdd, hj]
  · intro j hj
    simp only [addMemoGenerationJob, bullAdd, hj]
  · intro jid hcount
    exact bullAdd_count_le _ _ _ _ _ _ hcount
  · intro jid hcount
    exact bullAdd_count_le _ _ _ _ _ _ hcount

/-- C4 counterexample: with an active `transcribe-1` job already queued, a
second `addTranscriptionJob` for memo 1 completes normally - it returns
the already-queued job and leaves the queue unchanged, instead of failing
with an `AlreadyQueued` error (no such error exists anywhere in the
enqueue path). -/
theorem claim_C4_no_alreadyqueued_error :
    (addTranscriptionJob
      { db := singleMemoDB sampleMemo
        transcriptionQueue := { jobs :=
          [{ jobId := "transcribe-1", jobName := "transcribe-audio", memoId := 1, priority := 1 }] }
        memoGenerationQueue := emptyQueue } 1).1.transcriptionQueue =
      { jobs :=
        [{ jobId := "transcribe-1", jobName := "transcribe-audio", memoId := 1, priority := 1 }] } ∧
    (addTranscriptionJob
      { db := singleMemoDB sampleMemo
        transcriptionQueue := { jobs :=
          [{ jobId := "transcribe-1", jobName := "transcribe-audio", memoId := 1, priority := 1 }] }
        memoGenerationQueue := emptyQueue } 1).2 =
      { jobId := "transcribe-1", jobName := "transcribe-audio", memoId := 1, priority := 1 } := by
  refine ⟨by decide, by decide⟩

/-- C4 witness: the amended theorem applied to a concrete queue already
holding `transcribe-1`: the second enqueue returns that job with the state
unchanged, and the one-job-per-id bound is preserved. -/
theorem claim_C4_silent_dedup_witness :
    (addTranscriptionJob
      { db := singleMemoDB sampleMemo
        transcriptionQueue := { jobs :=
          [{ jobId := "transcribe-1", jobName := "transcribe-audio", memoId := 1, priority := 1 }] }
        memoGenerationQueue := emptyQueue } 1) =
      ({ db := singleMemoDB sampleMemo
         transcriptionQueue := { jobs :=
           [{ jobId := "transcribe-1", jobName := "transcribe-audio", memoId := 1, priority := 1 }] }
         memoGenerationQueue := emptyQueue },
       { jobId := "transcribe-1", jobName := "transcribe-audio", memoId := 1, priority := 1 }) ∧
    countJobs (addTranscriptionJob
      { db := singleMemoDB sampleMemo
        transcriptionQueue := { jobs :=
          [{ jobId := "transcribe-1", jobName := "transcribe-audio", memoId := 1, priority := 1 }] }
        memoGenerationQueue := emptyQueue } 1).1.transcriptionQueue "transcribe-1" ≤ 1 :=
  ⟨(claim_C4_silent_dedup
      { db := singleMemoDB sampleMemo
        transcriptionQueue := { jobs :=
          [{ jobId := "transcribe-1", jobName := "transcribe-audio", memoId := 1, priority := 1 }] }
        memoGenerationQueue := emptyQueue } 1).1
      { jobId := "transcribe-1", jobName := "transcribe-audio", memoId := 1, priority := 1 } rfl,
   (claim_C4_silent_dedup
      { db := singleMemoDB sampleMemo
        transcriptionQueue := { jobs :=
          [{ jobId := "transcribe-1", jobName := "transcribe-audio", memoId := 1, priority := 1 }] }
        memoGenerationQueue := emptyQueue } 1).2.2.1 "transcribe-1" (by decide)⟩

theorem bullAdd_mem (q : QueueState) (jobName : String) (memoId : Nat)
    (jobId : String) (priority : Nat) :
    ∃ j ∈ (bullAdd q jobName memoId jobId priority).1.jobs, j.jobId = jobId := by
  cases hf : q.jobs.find? (fun x => x.jobId == jobId) with
  | some j =>
    refine ⟨j, ?_, ?_⟩
    · simpa [bullAdd, hf] using List.mem_of_find?_eq_some hf
    · have := List.find?_some hf
      simpa using this
  | none =>
    refine ⟨⟨jobId, jobName, memoId, priority⟩, ?_, rfl⟩
    simp [bullAdd, hf]

/-- C7: the quota admission check runs synchronously in `POST /` before
anything is created: when the caller has no subscription or
`minutesUsed ≥ monthlyMinutes` (`checkSubscriptionLimits = false`), the
route replies 403 `SUBSCRIPTION_LIMIT_EXCEEDED` with the state completely
unchanged (no memo record, no job); otherwise (for a valid body) the memo
is created with initial status `UPLOADING`; and the route never touches
either job queue. -/
theorem claim_C7_quota_admission (s : PipelineState) (now : Int)
    (newId userId : Nat) (body : CreateMemoBody)
    (hvalid : 1 ≤ body.title.length) :
    (checkSubscriptionLimits s.db userId = false →
      createMemoRoute s now newId userId body =
        (s, .errorResponse 403 "SUBSCRIPTION_LIMIT_EXCEEDED")) ∧
    (checkSubscriptionLimits s.db userId = true → body.date.getD now ≤ now →
      ∃ memo, createMemoRoute s now newId userId body =
        ({ s with db := putMemo s.db newId memo }, .created memo) ∧
        memo.status = .UPLOADING ∧ memo.id = newId ∧ memo.userId = userId) ∧
    (checkSubscriptionLimits s.db userId = true ↔
      ∃ sub, s.db.subscriptions userId = some sub ∧
        sub.minutesUsed < sub.monthlyMinutes) ∧
    (createMemoRoute s now newId userId body).1.transcriptionQueue =
      s.transcriptionQueue ∧
    (createMemoRoute s now newId userId body).1.memoGenerationQueue =
      s.memoGenerationQueue := by
  have hnv : ¬ (body.title.length < 1) := by omega
  refine ⟨?_, ?_, ?_, ?_, ?_⟩
  · intro hq
    simp [createMemoRoute, hnv, hq]
  · intro hq hdate
    have hnd : ¬ (now < body.date.getD now) := by omega
    refine ⟨{ id := newId
              userId := userId
              title := strTrim body.title
              date := body.date.getD now
              participants := body.participants.getD []
              status := .UPLOADING
              errorMessage := none
              duration := none
              audioUrl := none
              audioStorageKey := none
              memoContent := none }, ?_, rfl, rfl, rfl⟩
    simp [createMemoRoute, hnv, hq, createMemo, hnd]
  · unfold checkSubscriptionLimits
    cases hsu : s.db.subscriptions userId with
    | none => simp
    | some sub => simp [hsu]
  · unfold createMemoRoute
    split_ifs
    all_goals
      try rfl
    all_goals
      cases hcm : createMemo s.db now newId userId
        { title := body.title, date := body.date.getD now,
          participants := body.participants.getD [] } with
      | error e => rfl
      | ok p =>
        obtain ⟨db2, memo⟩ := p
        rfl
  · unfold createMemoRoute
    split_ifs
    all_goals
      try rfl
    all_goals
      cases hcm : createMemo s.db now newId userId
        { title := body.title, date := body.date.getD now,
          participants := body.participants.getD [] } with
      | error e => rfl
      | ok p =>
        obtain ⟨db2, memo⟩ := p
        rfl

/-- C7 witness: the theorem applied to a caller whose subscription is
exhausted (`minutesUsed = monthlyMinutes`): creating a memo replies 403
`SUBSCRIPTION_LIMIT_EXCEEDED` and the state is completely unchanged. -/
theorem claim_C7_quota_admission_witness :
    createMemoRoute (startState (putSubscription (singleMemoDB sampleMemo) 7 exhaustedSub))
      0 2 7 { title := "Standup", date := none, participants := none } =
      (startState (putSubscription (singleMemoDB sampleMemo) 7 exhaustedSub),
       .errorResponse 403 "SUBSCRIPTION_LIMIT_EXCEEDED") :=
  (claim_C7_quota_admission
    (startState (putSubscription (singleMemoDB sampleMemo) 7 exhaustedSub))
    0 2 7 { title := "Standup", date := none, participants := none }
    (by decide)).1 (by decide)

/-- C8: `POST /:memoId/audio` on an owned memo whose status is not
`UPLOADING` replies 400 `INVALID_STATUS` with the state completely
unchanged (no audio stored, no transcription job enqueued); when the
status is `UPLOADING` (and a file is present and the S3 put succeeds) the
upload proceeds: the audio url and storage key are stored on the memo and
a `transcribe-<memoId>` job is enqueued. -/
theorem claim_C8_upload_requires_uploading (env : StorageEnv)
    (s : PipelineState) (nowMs userId memoId : Nat) (file : Option String)
    (m : Memo) (h : s.db.memos memoId = some m) (hown : m.userId = userId) :
    (m.status ≠ .UPLOADING →
      uploadAudioRoute env s nowMs userId memoId file =
        (s, .errorResponse 400 "INVALID_STATUS")) ∧
    (∀ f, m.status = .UPLOADING → file = some f → env.putOk = true →
      ∃ m2, (uploadAudioRoute env s nowMs userId memoId file).1.db.memos memoId =
          some m2 ∧
        m2.audioStorageKey = some (audioObjectKey memoId nowMs) ∧
        m2.audioUrl = some ("https://memo-maker-audio.s3.amazonaws.com/" ++
          audioObjectKey memoId nowMs) ∧
        (∃ j ∈ (uploadAudioRoute env s nowMs userId memoId file).1.transcriptionQueue.jobs,
          j.jobId = "transcribe-" ++ toString memoId) ∧
        (uploadAudioRoute env s nowMs userId memoId file).2 =
          .uploaded ("https://memo-maker-audio.s3.amazonaws.com/" ++
            audioObjectKey memoId nowMs)) := by
  constructor
  · intro hst
    simp [uploadAudioRoute, getMemoOwned, h, hown, hst]
  · intro f hst hfile hput
    subst hfile
    have hroute : uploadAudioRoute env s nowMs userId memoId (some f) =
        ((addTranscriptionJob { s with
          db := putMemo s.db memoId { m with
            audioUrl := some ("https://memo-maker-audio.s3.amazonaws.com/" ++
              audioObjectKey memoId nowMs)
            audioStorageKey := some (audioObjectKey memoId nowMs) } } memoId).1,
         .uploaded ("https://memo-maker-audio.s3.amazonaws.com/" ++
           audioObjectKey memoId nowMs)) := by
      simp [uploadAudioRoute, getMemoOwned, h, hown, hst, hput, setAudioUrl]
    rw [hroute]
    refine ⟨{ m with
      audioUrl := some ("https://memo-maker-audio.s3.amazonaws.com/" ++
        audioObjectKey memoId nowMs)
      audioStorageKey := some (audioObjectKey memoId nowMs) }, ?_, rfl, rfl, ?_, rfl⟩
    · simp [addTranscriptionJob]
    · exact bullAdd_mem _ _ _ _ _

/-- C8 witness: the theorem applied to a memo in `TRANSCRIBING` (upload
rejected, state unchanged) at concrete inputs. -/
theorem claim_C8_upload_requires_uploading_witness :
    uploadAudioRoute { putOk := true }
      (startState (singleMemoDB { sampleMemo with status := .TRANSCRIBING }))
      5 7 1 (some "audio/mpeg") =
      (startState (singleMemoDB { sampleMemo with status := .TRANSCRIBING }),
       .errorResponse 400 "INVALID_STATUS") :=
  (claim_C8_upload_requires_uploading { putOk := true }
    (startState (singleMemoDB { sampleMemo with status := .TRANSCRIBING }))
    5 7 1 (some "audio/mpeg") { sampleMemo with status := .TRANSCRIBING }
    (by decide) rfl).1 (by decide)

/-- C9: `updateMemoStatus` called without an error message (or with the
empty string, which is falsy and therefore not spread into the update)
changes only the `status` field: the stored `errorMessage` - and every
other field - is preserved, so a previously recorded error message is
never cleared even when the status is later set to a non-FAILED value. -/
theorem claim_C9_errorMessage_preserved (db : DB) (memoId : Nat)
    (st : MemoStatus) (em : Option String) (m : Memo)
    (h : db.memos memoId = some m) (hem : em = none ∨ em = some "") :
    updateMemoStatus db memoId st em =
      .ok (putMemo db memoId { m with status := st }, { m with status := st }) ∧
    ({ m with status := st } : Memo).errorMessage = m.errorMessage := by
  rcases hem with hem | hem
  · subst hem
    exact ⟨by simp [updateMemoStatus, h], rfl⟩
  · subst hem
    exact ⟨by simp [updateMemoStatus, h], rfl⟩

/-- C9 witness: a memo whose error message is `"boom"` and status `FAILED`
keeps `"boom"` when its status is later set to `COMPLETED` with no error
argument. -/
theorem claim_C9_errorMessage_preserved_witness :
    updateMemoStatus
      (singleMemoDB { sampleMemo with status := .FAILED, errorMessage := some "boom" })
      1 .COMPLETED none =
      .ok (putMemo
        (singleMemoDB { sampleMemo with status := .FAILED, errorMessage := some "boom" })
        1 { { sampleMemo with status := .FAILED, errorMessage := some "boom" } with
              status := .COMPLETED },
        { { sampleMemo with status := .FAILED, errorMessage := some "boom" } with
            status := .COMPLETED }) ∧
    ({ { sampleMemo with status := .FAILED, errorMessage := some "boom" } with
        status := .COMPLETED } : Memo).errorMessage =
      ({ sampleMemo with status := .FAILED, errorMessage := some "boom" } : Memo).errorMessage :=
  claim_C9_errorMessage_preserved
    (singleMemoDB { sampleMemo with status := .FAILED, errorMessage := some "boom" })
    1 .COMPLETED none { sampleMemo with status := .FAILED, errorMessage := some "boom" }
    (by decide) (Or.inl rfl)

/-- C10: `validateTranscript` accepts exactly the transcripts that are
non-empty after trimming, at least 50 and at most 100,000 characters long
(lengths measured on the untrimmed text, as in the source); every
transcript outside these bounds makes it throw a `ValidationError`; and in
the generation worker such a throw fails that attempt: the memo is marked
`FAILED` and the handler rethrows. -/
theorem claim_C10_validateTranscript_bounds :
    (∀ t : String, validateTranscript t = .ok true ↔
      ((strTrim t).length ≠ 0 ∧ 50 ≤ t.length ∧ t.length ≤ 100000)) ∧
    (∀ t : String, ¬ ((strTrim t).length ≠ 0 ∧ 50 ≤ t.length ∧ t.length ≤ 100000) →
      ∃ msg, validateTranscript t = .error (.validation msg)) ∧
    (∀ (genv : GenerationEnv) (memoId : Nat) (s : PipelineState) (m : Memo)
      (t : Transcript) (ve : AppError),
      s.db.memos memoId = some m →
      s.db.transcripts memoId = some t →
      validateTranscript t.text = .error ve →
      (generationAttempt genv memoId s).2.2 = .error ve.message ∧
      ∃ m2, (generationAttempt genv memoId s).1.db.memos memoId = some m2 ∧
        m2.status = .FAILED) := by
  refine ⟨?_, ?_, ?_⟩
  · intro t
    unfold validateTranscript
    split_ifs with h1 h2 h3
    · simp [h1]
    · constructor
      · intro hc
        simp at hc
      · intro hc
        omega
    · constructor
      · intro hc
        simp at hc
      · intro hc
        omega
    · constructor
      · intro hc
        refine ⟨h1, ?_, ?_⟩ <;> omega
      · intro hc
        rfl
  · intro t hout
    unfold validateTranscript
    split_ifs with h1 h2 h3
    · exact ⟨"Transcript is empty", rfl⟩
    · exact ⟨"Transcript too short (minimum 50 characters)", rfl⟩
    · exact ⟨"Transcript too long (maximum 100,000 characters)", rfl⟩
    · exact absurd ⟨h1, by omega, by omega⟩ hout
  · intro genv memoId s m t ve h ht hv
    constructor
    · simp [generationAttempt, generationTry, updateMemoStatus, h, ht, hv,
        generationCatch, genFailedMsg_ne]
    · refine ⟨{ m with
        status := .FAILED
        errorMessage := some ("Memo generation failed: " ++ ve.message) }, ?_, rfl⟩
      simp [generationAttempt, generationTry, updateMemoStatus, h, ht, hv,
        generationCatch, genFailedMsg_ne]

/-- C10 witness: the theorem's worker clause applied to a concrete
transcript of 20 characters (too short): the generation attempt fails with
the validation message and the memo ends `FAILED`; the bounds clause
evaluated at the same transcript. -/
theorem claim_C10_validateTranscript_bounds_witness :
    (validateTranscript "way too short here!" = .ok true ↔
      ((strTrim "way too short here!").length ≠ 0 ∧
        50 ≤ ("way too short here!" : String).length ∧
        ("way too short here!" : String).length ≤ 100000)) ∧
    ((generationAttempt gEnvOk 1
      (startState { singleMemoDB sampleMemo with
        transcripts := fun i => if i = 1 then
          some { memoId := 1, text := "way too short here!", segments := [], language := "en" }
          else none })).2.2 =
      .error (AppError.message (.validation "Transcript too short (minimum 50 characters)")) ∧
    ∃ m2, (generationAttempt gEnvOk 1
      (startState { singleMemoDB sampleMemo with
        transcripts := fun i => if i = 1 then
          some { memoId := 1, text := "way too short here!", segments := [], language := "en" }
          else none })).1.db.memos 1 = some m2 ∧
      m2.status = .FAILED) :=
  ⟨claim_C10_validateTranscript_bounds.1 "way too short here!",
   claim_C10_validateTranscript_bounds.2.2 gEnvOk 1
    (startState { singleMemoDB sampleMemo with
      transcripts := fun i => if i = 1 then
        some { memoId := 1, text := "way too short here!", segments := [], language := "en" }
        else none })
    sampleMemo
    { memoId := 1, text := "way too short here!", segments := [], language := "en" }
    (.validation "Transcript too short (minimum 50 characters)")
    (by decide) (by decide) (by decide)⟩

end MemoMaker
